import Mathlib

/-!
Verification of the language-dispatched NLP analysis pipeline of Task.py.

The function `perform_nlp_analysis` (Task.py, lines 62-213) is embedded
shallowly.  The third-party NLP engines (langdetect, NLTK, spaCy,
underthesea) are opaque capability providers; their outputs for a given
input text are supplied by an environment record `NlpEnv`, where an
`Except` value models a Python call that either returns or raises.  All
post-processing logic that Task.py performs on those outputs (filtering,
relabeling, truncation, BIO entity aggregation, sentence splitting) is
translated directly from the source.  Python strings are modeled as Lean
strings and the string primitives used by the source are re-implemented
over the underlying character lists.
-/

/-- Models membership in the default Python whitespace set used by
str.strip: space, tab, newline, carriage return, vertical tab, form feed. -/
def pyIsSpace (c : Char) : Bool :=
  c == ' ' || c == '\t' || c == '\n' || c == '\r' || c == Char.ofNat 11 || c == Char.ofNat 12

/-- Models the Python condition `not text or not text.strip()` (Task.py line 67):
true exactly when the string is empty or consists only of whitespace. -/
def blank (s : String) : Bool :=
  s.data.all pyIsSpace

/-- Uppercase-to-lowercase character table covering the character
repertoire this program manipulates: the ASCII letters, plus the
Vietnamese letter appearing in the literal of Task.py line 199. -/
def lowerTable : List (Char × Char) :=
  [('A', 'a'), ('B', 'b'), ('C', 'c'), ('D', 'd'), ('E', 'e'), ('F', 'f'),
   ('G', 'g'), ('H', 'h'), ('I', 'i'), ('J', 'j'), ('K', 'k'), ('L', 'l'),
   ('M', 'm'), ('N', 'n'), ('O', 'o'), ('P', 'p'), ('Q', 'q'), ('R', 'r'),
   ('S', 's'), ('T', 't'), ('U', 'u'), ('V', 'v'), ('W', 'w'), ('X', 'x'),
   ('Y', 'y'), ('Z', 'z'), ('Ệ', 'ệ')]

/-- Models Python str.lower on a single character over the table above.
Characters outside the table are left unchanged. -/
def lowerChar (c : Char) : Char :=
  match lowerTable.find? fun p => p.1 == c with
  | some p => p.2
  | none => c

/-- Models Python str.lower. -/
def pyLower (s : String) : String :=
  ⟨s.data.map lowerChar⟩

/-- Models Python str.isalpha: nonempty and every character alphabetic. -/
def pyIsAlpha (s : String) : Bool :=
  !s.data.isEmpty && s.data.all Char.isAlpha

/-- Models Python str.startswith. -/
def pyStartsWith (s pre : String) : Bool :=
  pre.data.isPrefixOf s.data

/-- Models the Python slice s[n:]. -/
def pyDrop (n : Nat) (s : String) : String :=
  ⟨s.data.drop n⟩

/-- Models Python str.split on a single separator character, keeping
empty segments, over the character list. -/
def splitDotChars : List Char → List (List Char)
  | [] => [[]]
  | c :: cs =>
    if c = '.' then [] :: splitDotChars cs
    else
      match splitDotChars cs with
      | [] => [[c]]
      | s :: rest => (c :: s) :: rest

/-- Models the Python expression text.split with separator the period
character (Task.py line 159). -/
def splitDot (s : String) : List String :=
  (splitDotChars s.data).map fun l => ⟨l⟩

/-- A named entity as produced by the pipeline: the Python dict with keys
text and label (Task.py lines 115 and 184). -/
structure Entity where
  text : String
  label : String
deriving DecidableEq

/-- A part-of-speech entry: the Python dict with keys token and pos
(Task.py lines 126 and 169). -/
structure PosPair where
  token : String
  pos : String
deriving DecidableEq

/-- One token of the spaCy document: its text, POS label, and whitespace
flag (the attributes token.text, token.pos and token.is_space read at
Task.py line 126). -/
structure DocTok where
  text : String
  pos : String
  is_space : Bool
deriving DecidableEq

/-- The results dictionary built by perform_nlp_analysis.  Each optional
field is `some` exactly when the corresponding key is present in the
Python dict. -/
structure Results where
  lang : Option String := none
  word_count : Option Nat := none
  sentence_count : Option Nat := none
  first_50_tokens : Option (List String) := none
  unique_lemmas : Option (List String) := none
  named_entities : Option (List Entity) := none
  pos_tags : Option (List PosPair) := none
  error_details : Option String := none
deriving DecidableEq

/-- Outputs of the English third-party calls inside the try block of
Task.py lines 92-135, bundled: NLTK tokens of the lowercased text, NLTK
sentences, the English stop-word set, the lemmatizer, the iteration
order that Python list(set(..)) yields on the lemma list, the spaCy
entity spans, and the spaCy document tokens. -/
structure EnData where
  tokens_lower : List String
  sentences : List String
  stop_words : List String
  lemmatize : String → String
  set_order : List String → List String
  ents : List Entity
  doc : List DocTok

/-- Outputs of the Vietnamese third-party calls inside the try block of
Task.py lines 149-201: the word-segmented tokens after splitting on
spaces, the raw POS pairs, and the raw NER triples (token, pos, tag). -/
structure ViData where
  tokens : List String
  pos_tags_raw : List (String × String)
  ner_raw : List (String × String × String)

/-- The environment of third-party NLP capabilities.  An `Except.error`
value models the corresponding Python call raising an exception; the
error payload of the strategy calls is the exception message. -/
structure NlpEnv where
  vn_nlp_available : Bool
  detect : String → Except Unit String
  en : String → Except String EnData
  vi : String → Except String ViData

/-- The dict returned for empty or whitespace-only input (Task.py line 69). -/
def emptyResult : Results :=
  { lang := some "unknown" }

/-- The language code the dispatch branches on: the detected code, or en
when detection raises (Task.py lines 74-80). -/
def detectedLang (env : NlpEnv) (text : String) : String :=
  match env.detect text with
  | .ok l => l
  | .error _ => "en"

/-- The value stored under the lang key: the detected code, or the
defaulting marker when detection raises (Task.py lines 76 and 80). -/
def displayLang (env : NlpEnv) (text : String) : String :=
  match env.detect text with
  | .ok l => l
  | .error _ => "unknown (defaulting to English)"

/-- The results dict after the placeholder initialization of Task.py
lines 82-88. -/
def baseResults (env : NlpEnv) (text : String) : Results :=
  { lang := some (displayLang env text)
    word_count := some 0
    sentence_count := some 0
    first_50_tokens := some []
    unique_lemmas := some []
    named_entities := some []
    pos_tags := some [] }

/-- The display token list with the literal token the removed
(Task.py line 102). -/
def enDisplay (d : EnData) : List String :=
  d.tokens_lower.filter fun t => !(t == "the")

/-- The value of first_50_tokens in the English branch (Task.py line 103). -/
def enTokensField (d : EnData) : List String :=
  (enDisplay d).take (min 50 (enDisplay d).length)

/-- Alphabetic non-stop-word tokens (Task.py lines 107-110). -/
def enFiltered (d : EnData) : List String :=
  d.tokens_lower.filter fun t => pyIsAlpha t && !(d.stop_words.contains t)

/-- The lemma list (Task.py line 111). -/
def enLemmas (d : EnData) : List String :=
  (enFiltered d).map d.lemmatize

/-- The value of unique_lemmas in the English branch (Task.py line 112):
the set iteration order applied to the lemma list, truncated by the
length of the original lemma list. -/
def enLemmasField (d : EnData) : List String :=
  (d.set_order (enLemmas d)).take (min 20 (enLemmas d).length)

/-- The English entity loop of Task.py lines 116-122: skip CARDINAL
entities, relabel google entities to TECH_COMPANY, keep the rest. -/
def enEntityPass : List Entity → List Entity
  | [] => []
  | e :: es =>
    if e.label == "CARDINAL" then enEntityPass es
    else (if pyLower e.text == "google" then { e with label := "TECH_COMPANY" } else e)
      :: enEntityPass es

/-- The value of named_entities in the English branch (Task.py line 123). -/
def enEntitiesField (d : EnData) : List Entity :=
  enEntityPass d.ents

/-- The forbidden POS label set of Task.py line 128. -/
def forbidden_pos : List String :=
  ["PUNCT", "SYM", "X"]

/-- The raw POS pairs: every non-whitespace spaCy token with its POS
label (Task.py line 126). -/
def enRawPos (d : EnData) : List PosPair :=
  (d.doc.filter fun t => !t.is_space).map fun t => PosPair.mk t.text t.pos

/-- The English POS loop of Task.py lines 127-134: skip forbidden
labels, relabel PROPN to NAME, keep the rest. -/
def enPosPass : List PosPair → List PosPair
  | [] => []
  | p :: ps =>
    if forbidden_pos.contains p.pos then enPosPass ps
    else (if p.pos == "PROPN" then { p with pos := "NAME" } else p) :: enPosPass ps

/-- The value of pos_tags in the English branch (Task.py line 135). -/
def enPosField (d : EnData) : List PosPair :=
  (enPosPass (enRawPos d)).take (min 30 (enPosPass (enRawPos d)).length)

/-- The English branch of Task.py lines 90-141.  On an exception the
source writes error_details into the dict and then returns None, so only
None is observable; on success it overwrites the placeholder fields. -/
def runEn (env : NlpEnv) (text : String) (base : Results) : Option Results :=
  match env.en text with
  | .error _ => none
  | .ok d => some { base with
      word_count := some d.tokens_lower.length
      sentence_count := some d.sentences.length
      first_50_tokens := some (enTokensField d)
      unique_lemmas := some (enLemmasField d)
      named_entities := some (enEntitiesField d)
      pos_tags := some (enPosField d) }

/-- The Vietnamese sentence count (Task.py lines 159-160): split the raw
text on periods and count the segments that are nonempty after stripping. -/
def viSentenceCount (text : String) : Nat :=
  ((splitDot text).filter fun s => !(blank s)).length

/-- The filtered Vietnamese POS pairs (Task.py lines 166-169): drop the
punctuation classes P, CH, F. -/
def viPosRaw (d : ViData) : List PosPair :=
  (d.pos_tags_raw.filter fun p => !(["P", "CH", "F"].contains p.2)).map
    fun p => PosPair.mk p.1 p.2

/-- The value of pos_tags in the Vietnamese branch (Task.py line 170). -/
def viPosField (d : ViData) : List PosPair :=
  (viPosRaw d).take (min 30 (viPosRaw d).length)

/-- The BIO aggregation loop of Task.py lines 181-195, threading the
accumulator text, the accumulator label and the output list. -/
def vnAggLoop : List (String × String) → String → String → List Entity → List Entity
  | [], curT, curL, out =>
    if curT = "" then out else out ++ [Entity.mk curT curL]
  | (tok, tag) :: rest, curT, curL, out =>
    if pyStartsWith tag "B-" then
      vnAggLoop rest tok (pyDrop 2 tag) (if curT = "" then out else out ++ [Entity.mk curT curL])
    else if pyStartsWith tag "I-" && (pyDrop 2 tag == curL) then
      vnAggLoop rest (curT ++ " " ++ tok) curL out
    else
      vnAggLoop rest "" "" (if curT = "" then out else out ++ [Entity.mk curT curL])

/-- The Vietnamese BIO entity aggregator, started with empty accumulators
(Task.py lines 177-195). -/
def vnAggregate (l : List (String × String)) : List Entity :=
  vnAggLoop l "" "" []

/-- The relabeling pass of Task.py lines 198-200: rename the label to
COUNTRY_VN when the lowercased entity text equals the mixed-case literal. -/
def vietRelabelPass (es : List Entity) : List Entity :=
  es.map fun e => if pyLower e.text == "Việt Nam" then { e with label := "COUNTRY_VN" } else e

/-- The value of named_entities in the Vietnamese branch (Task.py lines
174-201): aggregate the (token, tag) projection of the NER triples, then
apply the relabeling pass. -/
def viEntitiesField (d : ViData) : List Entity :=
  vietRelabelPass (vnAggregate (d.ner_raw.map fun t => (t.1, t.2.2)))

/-- The Vietnamese branch of Task.py lines 143-207.  The unavailable
toolset check and the exception handler both write error_details and
then return None, so only None is observable. -/
def runVi (env : NlpEnv) (text : String) (base : Results) : Option Results :=
  if !env.vn_nlp_available then none
  else
    match env.vi text with
    | .error _ => none
    | .ok d => some { base with
        first_50_tokens := some (d.tokens.take (min 50 d.tokens.length))
        word_count := some d.tokens.length
        sentence_count := some (viSentenceCount text)
        pos_tags := some (viPosField d)
        named_entities := some (viEntitiesField d) }

/-- The top-level pipeline of Task.py lines 62-213.  The unsupported
language branch (lines 209-211) writes error_details into the dict and
then returns None, so only None is observable. -/
def perform_nlp_analysis (env : NlpEnv) (text : String) : Option Results :=
  if blank text then some emptyResult
  else if detectedLang env text == "en" then runEn env text (baseResults env text)
  else if detectedLang env text == "vi" then runVi env text (baseResults env text)
  else none

/-- The successful English result shape. -/
def enSuccess (env : NlpEnv) (text : String) (d : EnData) : Results :=
  { lang := some (displayLang env text)
    word_count := some d.tokens_lower.length
    sentence_count := some d.sentences.length
    first_50_tokens := some (enTokensField d)
    unique_lemmas := some (enLemmasField d)
    named_entities := some (enEntitiesField d)
    pos_tags := some (enPosField d) }

/-- The successful Vietnamese result shape. -/
def viSuccess (env : NlpEnv) (text : String) (d : ViData) : Results :=
  { lang := some (displayLang env text)
    word_count := some d.tokens.length
    sentence_count := some (viSentenceCount text)
    first_50_tokens := some (d.tokens.take (min 50 d.tokens.length))
    unique_lemmas := some []
    named_entities := some (viEntitiesField d)
    pos_tags := some (viPosField d) }

/-- Specification-side flush: emit the accumulator as an entity when it
is non-empty.  This follows the wording of spec section 4.4 step 4. -/
def specFlush (a : String × String) : List Entity :=
  if a.1 = "" then [] else [Entity.mk a.1 a.2]

/-- Specification-side transition function of the BIO aggregation state
machine, following the wording of spec section 4.4 step 4: a B- tag
flushes and starts a new accumulator from the token and the type without
its two-character leader, an I- tag of matching type appends the token
space-joined, and any other tag flushes and clears. -/
def specStep (a : String × String) (tok tag : String) : (String × String) × List Entity :=
  if pyStartsWith tag "B-" then ((tok, pyDrop 2 tag), specFlush a)
  else if pyStartsWith tag "I-" && (pyDrop 2 tag == a.2) then
    ((a.1 ++ " " ++ tok, a.2), [])
  else (("", ""), specFlush a)

/-- Specification-side run of the state machine over a tag stream,
emitting flushed entities as they occur and flushing once more at the
end. -/
def specRun (a : String × String) : List (String × String) → List Entity
  | [] => specFlush a
  | (tok, tag) :: rest =>
    (specStep a tok tag).2 ++ specRun (specStep a tok tag).1 rest

/-- Specification-side aggregator: run the state machine from the empty
accumulator. -/
def specAggregate (l : List (String × String)) : List Entity :=
  specRun ("", "") l

/-- An environment whose detector reports French, an unsupported code. -/
def frEnv : NlpEnv :=
  { vn_nlp_available := true
    detect := fun _ => .ok "fr"
    en := fun _ => .error "unreached"
    vi := fun _ => .error "unreached" }

/-- An environment whose English toolchain raises an internal exception. -/
def exEnv : NlpEnv :=
  { vn_nlp_available := true
    detect := fun _ => .ok "en"
    en := fun _ => .error "tokenizer exception"
    vi := fun _ => .error "unreached" }

/-- A minimal environment for exercising the blank-input path. -/
def trivEnv : NlpEnv :=
  { vn_nlp_available := false
    detect := fun _ => .ok "xx"
    en := fun _ => .error "e"
    vi := fun _ => .error "e" }

/-- Concrete English toolchain outputs used by the witnesses. -/
def enW : EnData :=
  { tokens_lower := ["the", "cat", "google", "5"]
    sentences := ["The cat.", "Google 5."]
    stop_words := ["the"]
    lemmatize := fun s => s
    set_order := fun l => l
    ents := [Entity.mk "Google" "ORG", Entity.mk "5" "CARDINAL"]
    doc := [DocTok.mk "John" "PROPN" false, DocTok.mk " " "SPACE" true,
            DocTok.mk "runs" "VERB" false, DocTok.mk "." "PUNCT" false] }

/-- An environment that detects English and returns the concrete outputs. -/
def enWEnv : NlpEnv :=
  { vn_nlp_available := false
    detect := fun _ => .ok "en"
    en := fun _ => .ok enW
    vi := fun _ => .error "unavailable" }

/-- Concrete Vietnamese toolchain outputs used by the witnesses: the NER
stream tags the two tokens of the country name as one LOC entity. -/
def viW : ViData :=
  { tokens := ["Việt", "Nam", "đẹp"]
    pos_tags_raw := [("Việt", "Np"), (".", "CH")]
    ner_raw := [("Việt", "Np", "B-LOC"), ("Nam", "Np", "I-LOC"), ("đẹp", "A", "O")] }

/-- An environment that detects Vietnamese and returns the concrete outputs. -/
def viWEnv : NlpEnv :=
  { vn_nlp_available := true
    detect := fun _ => .ok "vi"
    en := fun _ => .error "unreached"
    vi := fun _ => .ok viW }

theorem runEn_eq (env : NlpEnv) (text : String) (base : Results) (d : EnData)
    (hen : env.en text = Except.ok d) :
    runEn env text base = some { base with
      word_count := some d.tokens_lower.length
      sentence_count := some d.sentences.length
      first_50_tokens := some (enTokensField d)
      unique_lemmas := some (enLemmasField d)
      named_entities := some (enEntitiesField d)
      pos_tags := some (enPosField d) } := by
  unfold runEn
  rw [hen]

theorem perform_en_eq (env : NlpEnv) (text : String) (d : EnData)
    (hb : blank text = false) (hdet : detectedLang env text = "en")
    (hen : env.en text = Except.ok d) :
    perform_nlp_analysis env text = some (enSuccess env text d) := by
  unfold perform_nlp_analysis
  rw [hb, hdet, runEn_eq env text _ d hen]
  rfl

theorem perform_vi_eq (env : NlpEnv) (text : String) (d : ViData)
    (hb : blank text = false) (hdet : detectedLang env text = "vi")
    (hav : env.vn_nlp_available = true) (hvi : env.vi text = Except.ok d) :
    perform_nlp_analysis env text = some (viSuccess env text d) := by
  unfold perform_nlp_analysis runVi
  rw [hb, hdet, hav, hvi]
  rfl

theorem lowerChar_ne_V (c : Char) : lowerChar c ≠ 'V' := by
  unfold lowerChar
  cases hf : lowerTable.find? fun p => p.1 == c with
  | none =>
    show c ≠ 'V'
    intro hc
    rw [hc] at hf
    exact absurd hf (by decide)
  | some p =>
    show p.2 ≠ 'V'
    have hm : p ∈ lowerTable := List.mem_of_find?_eq_some hf
    have hall : ∀ q ∈ lowerTable, q.2 ≠ 'V' := by decide
    exact hall p hm

theorem pyLower_ne_vietnam (s : String) : pyLower s ≠ "Việt Nam" := by
  intro h
  have hd : s.data.map lowerChar = "Việt Nam".data := congrArg String.data h
  cases hs : s.data with
  | nil =>
    rw [hs] at hd
    exact absurd hd (by decide)
  | cons c cs =>
    rw [hs, List.map_cons] at hd
    have hv : lowerChar c = 'V' := (List.cons.injEq _ _ _ _ ▸ hd).1
    exact lowerChar_ne_V c hv

theorem vietRelabelPass_id (es : List Entity) : vietRelabelPass es = es := by
  unfold vietRelabelPass
  induction es with
  | nil => rfl
  | cons e es ih =>
    rw [List.map_cons, ih]
    have hne : (pyLower e.text == "Việt Nam") = false :=
      beq_eq_false_iff_ne.mpr (pyLower_ne_vietnam e.text)
    rw [hne]
    simp

theorem take_min_length {α : Type} (n : Nat) (l : List α) :
    l.take (min n l.length) = l.take n := by
  rcases Nat.le_total n l.length with h | h
  · rw [Nat.min_eq_left h]
  · rw [Nat.min_eq_right h, List.take_length, List.take_of_length_le h]

theorem enEntityPass_eq (l : List Entity) :
    enEntityPass l = (l.filter fun e => !(e.label == "CARDINAL")).map
      fun e => if pyLower e.text == "google" then { e with label := "TECH_COMPANY" } else e := by
  induction l with
  | nil => rfl
  | cons e es ih =>
    unfold enEntityPass
    rw [List.filter_cons]
    by_cases h : (e.label == "CARDINAL") = true
    · have hcond : ¬((!(e.label == "CARDINAL")) = true) := by simp [h]
      rw [if_pos h, if_neg hcond, ih]
    · have h1 : (!(e.label == "CARDINAL")) = true := by
        simp only [Bool.not_eq_true'] at h ⊢
        simpa using h
      rw [if_neg h, if_pos h1, List.map_cons, ih]

theorem enPosPass_eq (l : List PosPair) :
    enPosPass l = (l.filter fun p => !(forbidden_pos.contains p.pos)).map
      fun p => if p.pos == "PROPN" then { p with pos := "NAME" } else p := by
  induction l with
  | nil => rfl
  | cons p ps ih =>
    unfold enPosPass
    rw [List.filter_cons]
    by_cases h : forbidden_pos.contains p.pos = true
    · have hcond : ¬((!forbidden_pos.contains p.pos) = true) := by
        rw [h]
        decide
      rw [if_pos h, if_neg hcond, ih]
    · have h' : forbidden_pos.contains p.pos = false := by
        rwa [Bool.not_eq_true] at h
      have h1 : (!forbidden_pos.contains p.pos) = true := by
        rw [h']
        rfl
      rw [if_neg h, if_pos h1, List.map_cons, ih]

theorem vnAggLoop_eq_specRun (l : List (String × String)) :
    ∀ (t lb : String) (out : List Entity),
      vnAggLoop l t lb out = out ++ specRun (t, lb) l := by
  induction l with
  | nil =>
    intro t lb out
    unfold vnAggLoop specRun specFlush
    by_cases h : t = ""
    · simp [h]
    · simp [h]
  | cons p rest ih =>
    intro t lb out
    obtain ⟨tok, tag⟩ := p
    by_cases hB : pyStartsWith tag "B-" = true
    · by_cases ht : t = ""
      · simp [vnAggLoop, specRun, specStep, specFlush, hB, ht, ih]
      · simp [vnAggLoop, specRun, specStep, specFlush, hB, ht, ih]
    · have hB' : pyStartsWith tag "B-" = false := by simpa using hB
      by_cases hI : (pyStartsWith tag "I-" && (pyDrop 2 tag == lb)) = true
      · simp [vnAggLoop, specRun, specStep, specFlush, hB', hI, ih]
      · have hI' : (pyStartsWith tag "I-" && (pyDrop 2 tag == lb)) = false := by simpa using hI
        by_cases ht : t = ""
        · simp [vnAggLoop, specRun, specStep, specFlush, hB', hI', ht, ih]
        · simp [vnAggLoop, specRun, specStep, specFlush, hB', hI', ht, ih]

theorem enEntityPass_no_cardinal (l : List Entity) :
    (enEntityPass l).all (fun e => !(e.label == "CARDINAL")) = true := by
  rw [List.all_eq_true]
  intro x hx
  rw [enEntityPass_eq] at hx
  rcases List.mem_map.mp hx with ⟨e, he, hfe⟩
  by_cases hg : (pyLower e.text == "google") = true
  · rw [if_pos hg] at hfe
    rw [← hfe]
    rfl
  · rw [if_neg hg] at hfe
    rw [← hfe]
    exact (List.mem_filter.mp he).2

theorem enEntityPass_google (l : List Entity) :
    (enEntityPass l).all
      (fun e => !(pyLower e.text == "google") || (e.label == "TECH_COMPANY")) = true := by
  rw [List.all_eq_true]
  intro x hx
  rw [enEntityPass_eq] at hx
  rcases List.mem_map.mp hx with ⟨e, he, hfe⟩
  by_cases hg : (pyLower e.text == "google") = true
  · rw [if_pos hg] at hfe
    rw [← hfe]
    show (!(pyLower e.text == "google") || ("TECH_COMPANY" == "TECH_COMPANY")) = true
    simp
  · rw [if_neg hg] at hfe
    rw [← hfe]
    have hg' : (pyLower e.text == "google") = false := by
      rwa [Bool.not_eq_true] at hg
    show (!(pyLower e.text == "google") || (e.label == "TECH_COMPANY")) = true
    rw [hg']
    rfl

theorem enEntityPass_length (l : List Entity) :
    (enEntityPass l).length = (l.filter fun e => !(e.label == "CARDINAL")).length := by
  rw [enEntityPass_eq, List.length_map]

theorem enPosPass_no_forbidden (l : List PosPair) :
    (enPosPass l).all (fun p => !(forbidden_pos.contains p.pos)) = true := by
  rw [List.all_eq_true]
  intro x hx
  rw [enPosPass_eq] at hx
  rcases List.mem_map.mp hx with ⟨p, hp, hfp⟩
  by_cases hn : (p.pos == "PROPN") = true
  · rw [if_pos hn] at hfp
    rw [← hfp]
    rfl
  · rw [if_neg hn] at hfp
    rw [← hfp]
    exact (List.mem_filter.mp hp).2

theorem enPosPass_no_propn (l : List PosPair) :
    (enPosPass l).all (fun p => !(p.pos == "PROPN")) = true := by
  rw [List.all_eq_true]
  intro x hx
  rw [enPosPass_eq] at hx
  rcases List.mem_map.mp hx with ⟨p, hp, hfp⟩
  by_cases hn : (p.pos == "PROPN") = true
  · rw [if_pos hn] at hfp
    rw [← hfp]
    rfl
  · rw [if_neg hn] at hfp
    rw [← hfp]
    show (!(p.pos == "PROPN")) = true
    have hn' : (p.pos == "PROPN") = false := by
      rwa [Bool.not_eq_true] at hn
    rw [hn']
    rfl

theorem all_take {α : Type} (p : α → Bool) (n : Nat) (l : List α)
    (h : l.all p = true) : (l.take n).all p = true := by
  rw [List.all_eq_true] at h ⊢
  intro x hx
  exact h x (List.mem_of_mem_take hx)

theorem perform_cases (env : NlpEnv) (text : String) (r : Results)
    (h : perform_nlp_analysis env text = some r) :
    (blank text = true ∧ r = emptyResult) ∨
    (blank text = false ∧ detectedLang env text = "en" ∧
      ∃ d, env.en text = Except.ok d ∧ r = enSuccess env text d) ∨
    (blank text = false ∧ detectedLang env text = "vi" ∧ env.vn_nlp_available = true ∧
      ∃ d, env.vi text = Except.ok d ∧ r = viSuccess env text d) := by
  by_cases hb : blank text = true
  · left
    refine ⟨hb, ?_⟩
    unfold perform_nlp_analysis at h
    rw [hb] at h
    simpa using h.symm
  · have hb' : blank text = false := by simpa using hb
    by_cases hen : detectedLang env text = "en"
    · right; left
      refine ⟨hb', hen, ?_⟩
      unfold perform_nlp_analysis runEn at h
      rw [hb', hen] at h
      simp only [beq_self_eq_true, if_true, Bool.false_eq_true, if_false] at h
      cases hcall : env.en text with
      | error e =>
        rw [hcall] at h
        cases h
      | ok d =>
        rw [hcall] at h
        refine ⟨d, rfl, ?_⟩
        injection h with h
        rw [← h]
        rfl
    · by_cases hvi : detectedLang env text = "vi"
      · right; right
        refine ⟨hb', hvi, ?_⟩
        unfold perform_nlp_analysis runVi at h
        rw [hb', hvi] at h
        simp only [Bool.false_eq_true, if_false, beq_self_eq_true, if_true] at h
        have hviEn : (("vi" : String) == "en") = false := by decide
        rw [hviEn] at h
        simp only [Bool.false_eq_true, if_false] at h
        cases hav : env.vn_nlp_available with
        | false =>
          rw [hav] at h
          cases h
        | true =>
          rw [hav] at h
          simp only [Bool.not_true, Bool.false_eq_true, if_false] at h
          cases hcall : env.vi text with
          | error e =>
            rw [hcall] at h
            cases h
          | ok d =>
            rw [hcall] at h
            refine ⟨rfl, d, rfl, ?_⟩
            injection h with h
            rw [← h]
            rfl
      · exfalso
        unfold perform_nlp_analysis at h
        rw [hb'] at h
        have h1 : (detectedLang env text == "en") = false := beq_eq_false_iff_ne.mpr hen
        have h2 : (detectedLang env text == "vi") = false := beq_eq_false_iff_ne.mpr hvi
        rw [h1, h2] at h
        simp at h

/-- Claim C1 (code_bug evidence): on an unsupported detected language
such as fr, and on an internal exception inside the English strategy,
perform_nlp_analysis returns None rather than a dict carrying an
errorDetails string.  The claim, and the source file together with its
own caller (the analyze route tests for the error_details key in the
returned value, Task.py line 239), expect a failure dict; the code
writes error_details into the local dict and then returns None
(Task.py lines 141, 147, 207, 211). -/
theorem claim1_failure_paths_return_none :
    perform_nlp_analysis frEnv "Bonjour tout le monde" = none ∧
    perform_nlp_analysis exEnv "Some English text." = none :=
  ⟨rfl, rfl⟩

/-- Claim C2 (counterexample): a Vietnamese run whose aggregated entity
has text exactly the country name keeps its aggregated label LOC; the
label is not renamed to COUNTRY_VN, contradicting the claim. -/
theorem claim2_counterexample :
    perform_nlp_analysis viWEnv "Việt Nam đẹp." =
      some (viSuccess viWEnv "Việt Nam đẹp." viW) ∧
    (viSuccess viWEnv "Việt Nam đẹp." viW).named_entities =
      some [Entity.mk "Việt Nam" "LOC"] ∧
    ("LOC" : String) ≠ "COUNTRY_VN" :=
  ⟨rfl, rfl, by decide⟩

/-- Claim C2 (amended): the relabeling pass of the Vietnamese strategy
never renames any label.  The condition compares the lowercased entity
text with the mixed-case literal of Task.py line 199, which no
lowercased string can equal, so every aggregated entity, including one
whose text is exactly the country name, keeps its label, and the
Vietnamese entity field is exactly the aggregated entity list. -/
theorem claim2_amended_no_relabel :
    (∀ es : List Entity, vietRelabelPass es = es) ∧
    ∀ d : ViData,
      viEntitiesField d = vnAggregate (d.ner_raw.map fun t => (t.1, t.2.2)) := by
  refine ⟨vietRelabelPass_id, fun d => ?_⟩
  unfold viEntitiesField
  rw [vietRelabelPass_id]

/-- Claim C3: whenever perform_nlp_analysis returns a dict at all, that
dict does not contain the error_details key, because every failure
branch returns None instead of the dict into which it wrote
error_details. -/
theorem claim3_returned_dict_has_no_error_details (env : NlpEnv) (text : String)
    (r : Results) (h : perform_nlp_analysis env text = some r) :
    r.error_details = none := by
  rcases perform_cases env text r h with ⟨_, hr⟩ | ⟨_, _, d, _, hr⟩ | ⟨_, _, _, d, _, hr⟩
  · rw [hr]; rfl
  · rw [hr]; rfl
  · rw [hr]; rfl

/-- Witness for claim C3 at a concrete input. -/
theorem claim3_witness :
    perform_nlp_analysis trivEnv "" = some emptyResult ∧
    emptyResult.error_details = none :=
  ⟨rfl, claim3_returned_dict_has_no_error_details trivEnv "" emptyResult rfl⟩

/-- Claim C4: on the concrete stream the Vietnamese BIO aggregator
yields exactly one LOC entity with the space-joined text, and on every
tag stream the aggregator coincides with the specification state
machine: a B- tag flushes any non-empty accumulator and starts a new
one from the token and the type without its two-character leader, an
I- tag of matching type appends the token space-joined, any other tag
flushes and clears, and the accumulator is flushed once more after the
last token. -/
theorem claim4_bio_aggregator :
    vnAggregate [("Hà", "B-LOC"), ("Nội", "I-LOC"), ("đẹp", "O")] =
      [Entity.mk "Hà Nội" "LOC"] ∧
    ∀ l : List (String × String), vnAggregate l = specAggregate l := by
  constructor
  · rfl
  · intro l
    unfold vnAggregate specAggregate
    rw [vnAggLoop_eq_specRun l "" "" [], List.nil_append]

/-- Claim C5: for every input that is empty or whitespace-only,
perform_nlp_analysis returns a dict whose only key is lang with the
value unknown: no error string and none of the analytic fields. -/
theorem claim5_blank_input (env : NlpEnv) (text : String)
    (h : blank text = true) :
    perform_nlp_analysis env text = some emptyResult ∧
    emptyResult.lang = some "unknown" ∧
    emptyResult.error_details = none ∧
    emptyResult.word_count = none ∧
    emptyResult.sentence_count = none ∧
    emptyResult.first_50_tokens = none ∧
    emptyResult.unique_lemmas = none ∧
    emptyResult.named_entities = none ∧
    emptyResult.pos_tags = none := by
  refine ⟨?_, rfl, rfl, rfl, rfl, rfl, rfl, rfl, rfl⟩
  unfold perform_nlp_analysis
  rw [h]
  rfl

/-- Witness for claim C5 at a concrete whitespace-only input. -/
theorem claim5_witness :
    blank "   " = true ∧
    perform_nlp_analysis trivEnv "   " = some emptyResult :=
  ⟨rfl, (claim5_blank_input trivEnv "   " rfl).1⟩

theorem displayLang_vi (env : NlpEnv) (text : String)
    (h : displayLang env text = "vi") : detectedLang env text = "vi" := by
  unfold displayLang at h
  unfold detectedLang
  revert h
  cases env.detect text with
  | ok l => intro h; exact h
  | error e =>
    intro h
    have h2 : "unknown (defaulting to English)" = "vi" := h
    exact absurd h2 (by decide)

theorem enPosField_le (d : EnData) : (enPosField d).length ≤ 30 := by
  unfold enPosField
  exact le_trans (List.length_take_le _ _) (Nat.min_le_left _ _)

theorem enTokensField_le (d : EnData) : (enTokensField d).length ≤ 50 := by
  unfold enTokensField
  exact le_trans (List.length_take_le _ _) (Nat.min_le_left _ _)

theorem enLemmasField_le (d : EnData) : (enLemmasField d).length ≤ 20 := by
  unfold enLemmasField
  exact le_trans (List.length_take_le _ _) (Nat.min_le_left _ _)

theorem viPosField_le (d : ViData) : (viPosField d).length ≤ 30 := by
  unfold viPosField
  exact le_trans (List.length_take_le _ _) (Nat.min_le_left _ _)

/-- Claim C6: in every successful English analysis the returned entity
list is the raw spaCy span list with every CARDINAL entity dropped,
every other span kept in order with no truncation, and every kept
entity whose lowercased text is google relabeled TECH_COMPANY; hence no
returned entity is labeled CARDINAL and every google-texted returned
entity carries TECH_COMPANY. -/
theorem claim6_english_entities (env : NlpEnv) (text : String) (d : EnData)
    (r : Results) (hb : blank text = false)
    (hdet : detectedLang env text = "en") (hen : env.en text = Except.ok d)
    (hr : perform_nlp_analysis env text = some r) :
    r.named_entities = some (enEntitiesField d) ∧
    enEntitiesField d = (d.ents.filter fun e => !(e.label == "CARDINAL")).map
      (fun e => if pyLower e.text == "google" then { e with label := "TECH_COMPANY" } else e) ∧
    (enEntitiesField d).all (fun e => !(e.label == "CARDINAL")) = true ∧
    (enEntitiesField d).all
      (fun e => !(pyLower e.text == "google") || (e.label == "TECH_COMPANY")) = true ∧
    (enEntitiesField d).length =
      (d.ents.filter fun e => !(e.label == "CARDINAL")).length := by
  rw [perform_en_eq env text d hb hdet hen] at hr
  injection hr with hr
  exact ⟨by rw [← hr]; rfl, enEntityPass_eq d.ents, enEntityPass_no_cardinal d.ents,
    enEntityPass_google d.ents, enEntityPass_length d.ents⟩

/-- Witness for claim C6 at a concrete English run containing a Google
entity and a CARDINAL entity. -/
theorem claim6_witness :
    blank "The cat. Google 5." = false ∧
    detectedLang enWEnv "The cat. Google 5." = "en" ∧
    enWEnv.en "The cat. Google 5." = Except.ok enW ∧
    perform_nlp_analysis enWEnv "The cat. Google 5." =
      some (enSuccess enWEnv "The cat. Google 5." enW) ∧
    ((enSuccess enWEnv "The cat. Google 5." enW).named_entities = some (enEntitiesField enW) ∧
     enEntitiesField enW = (enW.ents.filter fun e => !(e.label == "CARDINAL")).map
       (fun e => if pyLower e.text == "google" then { e with label := "TECH_COMPANY" } else e) ∧
     (enEntitiesField enW).all (fun e => !(e.label == "CARDINAL")) = true ∧
     (enEntitiesField enW).all
       (fun e => !(pyLower e.text == "google") || (e.label == "TECH_COMPANY")) = true ∧
     (enEntitiesField enW).length =
       (enW.ents.filter fun e => !(e.label == "CARDINAL")).length) :=
  ⟨rfl, rfl, rfl, rfl,
    claim6_english_entities enWEnv "The cat. Google 5." enW
      (enSuccess enWEnv "The cat. Google 5." enW) rfl rfl rfl rfl⟩

/-- Claim C7: in every successful English analysis the returned POS list
is the first thirty, in document order, of the non-whitespace tokens
after dropping the labels PUNCT, SYM and X and renaming PROPN to NAME;
hence no returned label is forbidden and no returned label is PROPN. -/
theorem claim7_english_pos_tags (env : NlpEnv) (text : String) (d : EnData)
    (r : Results) (hb : blank text = false)
    (hdet : detectedLang env text = "en") (hen : env.en text = Except.ok d)
    (hr : perform_nlp_analysis env text = some r) :
    r.pos_tags = some (enPosField d) ∧
    enPosField d = (((enRawPos d).filter fun p => !(forbidden_pos.contains p.pos)).map
      (fun p => if p.pos == "PROPN" then { p with pos := "NAME" } else p)).take 30 ∧
    (enPosField d).all (fun p => !(forbidden_pos.contains p.pos)) = true ∧
    (enPosField d).all (fun p => !(p.pos == "PROPN")) = true := by
  rw [perform_en_eq env text d hb hdet hen] at hr
  injection hr with hr
  refine ⟨by rw [← hr]; rfl, ?_, ?_, ?_⟩
  · unfold enPosField
    rw [take_min_length, enPosPass_eq]
  · exact all_take _ _ _ (enPosPass_no_forbidden (enRawPos d))
  · exact all_take _ _ _ (enPosPass_no_propn (enRawPos d))

/-- Witness for claim C7 at a concrete English run containing a PROPN
token, a PUNCT token and a whitespace token. -/
theorem claim7_witness :
    blank "The cat. Google 5." = false ∧
    detectedLang enWEnv "The cat. Google 5." = "en" ∧
    enWEnv.en "The cat. Google 5." = Except.ok enW ∧
    perform_nlp_analysis enWEnv "The cat. Google 5." =
      some (enSuccess enWEnv "The cat. Google 5." enW) ∧
    ((enSuccess enWEnv "The cat. Google 5." enW).pos_tags = some (enPosField enW) ∧
     enPosField enW = (((enRawPos enW).filter fun p => !(forbidden_pos.contains p.pos)).map
       (fun p => if p.pos == "PROPN" then { p with pos := "NAME" } else p)).take 30 ∧
     (enPosField enW).all (fun p => !(forbidden_pos.contains p.pos)) = true ∧
     (enPosField enW).all (fun p => !(p.pos == "PROPN")) = true) :=
  ⟨rfl, rfl, rfl, rfl,
    claim7_english_pos_tags enWEnv "The cat. Google 5." enW
      (enSuccess enWEnv "The cat. Google 5." enW) rfl rfl rfl rfl⟩

/-- Claim C8: every dict returned by perform_nlp_analysis, on any input
and for either language, has at most 30 POS entries, at most 50 display
tokens and at most 20 lemmas. -/
theorem claim8_truncation_bounds (env : NlpEnv) (text : String) (r : Results)
    (h : perform_nlp_analysis env text = some r) :
    (r.pos_tags.getD []).length ≤ 30 ∧
    (r.first_50_tokens.getD []).length ≤ 50 ∧
    (r.unique_lemmas.getD []).length ≤ 20 := by
  rcases perform_cases env text r h with ⟨_, hr⟩ | ⟨_, _, d, _, hr⟩ | ⟨_, _, _, d, _, hr⟩
  · rw [hr]
    exact ⟨Nat.zero_le _, Nat.zero_le _, Nat.zero_le _⟩
  · rw [hr]
    exact ⟨enPosField_le d, enTokensField_le d, enLemmasField_le d⟩
  · rw [hr]
    exact ⟨viPosField_le d,
      le_trans (List.length_take_le _ _) (Nat.min_le_left _ _), Nat.zero_le _⟩

/-- Witness for claim C8 at a concrete English run. -/
theorem claim8_witness :
    perform_nlp_analysis enWEnv "The cat. Google 5." =
      some (enSuccess enWEnv "The cat. Google 5." enW) ∧
    (((enSuccess enWEnv "The cat. Google 5." enW).pos_tags.getD []).length ≤ 30 ∧
     ((enSuccess enWEnv "The cat. Google 5." enW).first_50_tokens.getD []).length ≤ 50 ∧
     ((enSuccess enWEnv "The cat. Google 5." enW).unique_lemmas.getD []).length ≤ 20) :=
  ⟨rfl, claim8_truncation_bounds enWEnv "The cat. Google 5."
    (enSuccess enWEnv "The cat. Google 5." enW) rfl⟩

/-- Claim C9: in every successful English analysis the literal lowercase
token the never appears in the returned display token list, while the
word count is the length of the full original token list, every the
instance included. -/
theorem claim9_the_dropped_but_counted (env : NlpEnv) (text : String)
    (d : EnData) (r : Results) (hb : blank text = false)
    (hdet : detectedLang env text = "en") (hen : env.en text = Except.ok d)
    (hr : perform_nlp_analysis env text = some r) :
    r.first_50_tokens = some (enTokensField d) ∧
    "the" ∉ enTokensField d ∧
    r.word_count = some d.tokens_lower.length := by
  rw [perform_en_eq env text d hb hdet hen] at hr
  injection hr with hr
  refine ⟨by rw [← hr]; rfl, ?_, by rw [← hr]; rfl⟩
  intro hmem
  unfold enTokensField enDisplay at hmem
  have h1 := List.mem_of_mem_take hmem
  have h2 := (List.mem_filter.mp h1).2
  simp at h2

/-- Witness for claim C9 at a concrete English run whose token list
contains the token the. -/
theorem claim9_witness :
    blank "The cat. Google 5." = false ∧
    detectedLang enWEnv "The cat. Google 5." = "en" ∧
    enWEnv.en "The cat. Google 5." = Except.ok enW ∧
    perform_nlp_analysis enWEnv "The cat. Google 5." =
      some (enSuccess enWEnv "The cat. Google 5." enW) ∧
    ((enSuccess enWEnv "The cat. Google 5." enW).first_50_tokens = some (enTokensField enW) ∧
     "the" ∉ enTokensField enW ∧
     (enSuccess enWEnv "The cat. Google 5." enW).word_count =
       some enW.tokens_lower.length) :=
  ⟨rfl, rfl, rfl, rfl,
    claim9_the_dropped_but_counted enWEnv "The cat. Google 5." enW
      (enSuccess enWEnv "The cat. Google 5." enW) rfl rfl rfl rfl⟩

/-- Claim C10: every dict returned for non-blank input carries all the
analytic fields, carries no error string, and when the language field is
vi the lemmas field is the empty list. -/
theorem claim10_success_field_completeness (env : NlpEnv) (text : String)
    (r : Results) (hb : blank text = false)
    (h : perform_nlp_analysis env text = some r) :
    r.lang.isSome = true ∧ r.word_count.isSome = true ∧
    r.sentence_count.isSome = true ∧ r.first_50_tokens.isSome = true ∧
    r.unique_lemmas.isSome = true ∧ r.named_entities.isSome = true ∧
    r.pos_tags.isSome = true ∧ r.error_details = none ∧
    ((!(r.lang == some "vi")) || (r.unique_lemmas == some [])) = true := by
  rcases perform_cases env text r h with ⟨hb', _⟩ | ⟨_, hdet, d, _, hr⟩ | ⟨_, _, _, d, _, hr⟩
  · rw [hb'] at hb
    cases hb
  · rw [hr]
    refine ⟨rfl, rfl, rfl, rfl, rfl, rfl, rfl, rfl, ?_⟩
    have hne : (enSuccess env text d).lang ≠ some "vi" := by
      intro hlang
      have h0 : some (displayLang env text) = some "vi" := hlang
      injection h0 with h0
      have h1 := displayLang_vi env text h0
      rw [h1] at hdet
      exact absurd hdet (by decide)
    have h2 : ((enSuccess env text d).lang == some "vi") = false :=
      beq_eq_false_iff_ne.mpr hne
    rw [h2]
    rfl
  · rw [hr]
    refine ⟨rfl, rfl, rfl, rfl, rfl, rfl, rfl, rfl, ?_⟩
    have h2 : ((viSuccess env text d).unique_lemmas == some []) = true := by rfl
    rw [h2, Bool.or_true]

/-- Witness for claim C10 at a concrete Vietnamese run, where the lemmas
field is the empty list. -/
theorem claim10_witness :
    blank "Việt Nam đẹp." = false ∧
    perform_nlp_analysis viWEnv "Việt Nam đẹp." =
      some (viSuccess viWEnv "Việt Nam đẹp." viW) ∧
    ((viSuccess viWEnv "Việt Nam đẹp." viW).lang.isSome = true ∧
     (viSuccess viWEnv "Việt Nam đẹp." viW).word_count.isSome = true ∧
     (viSuccess viWEnv "Việt Nam đẹp." viW).sentence_count.isSome = true ∧
     (viSuccess viWEnv "Việt Nam đẹp." viW).first_50_tokens.isSome = true ∧
     (viSuccess viWEnv "Việt Nam đẹp." viW).unique_lemmas.isSome = true ∧
     (viSuccess viWEnv "Việt Nam đẹp." viW).named_entities.isSome = true ∧
     (viSuccess viWEnv "Việt Nam đẹp." viW).pos_tags.isSome = true ∧
     (viSuccess viWEnv "Việt Nam đẹp." viW).error_details = none ∧
     ((!((viSuccess viWEnv "Việt Nam đẹp." viW).lang == some "vi")) ||
       ((viSuccess viWEnv "Việt Nam đẹp." viW).unique_lemmas == some [])) = true) :=
  ⟨rfl, rfl,
    claim10_success_field_completeness viWEnv "Việt Nam đẹp."
      (viSuccess viWEnv "Việt Nam đẹp." viW) rfl rfl⟩
